import Mathlib

/-!
Shallow embedding of the demandlib repository (oemof/demandlib) for
verification of its natural-language specification.

Numeric series are modelled over `ℚ` (exact arithmetic; the spec's
"up to floating-point error" clauses become exact equalities).
A pandas `DataFrame` of named columns is modelled as an association
list `Frame := List (String × List ℚ)`; `NaN`-producing lookups are
modelled with `Option`; Python exceptions are modelled with `Option`
(for `KeyError`) or `Except String` (for typed errors with a message).
-/

/-- A pandas DataFrame of named numeric columns. -/
abbrev Frame : Type := List (String × List ℚ)

/-- Column access `frame[name]`: first column with the given name. -/
def getColumn (frame : Frame) (name : String) : Option (List ℚ) :=
  (List.find? (fun nc => nc.1 = name) frame).map Prod.snd

/-- Column assignment `frame[name] = col`: replace the column when the
name exists, append it otherwise (pandas semantics). -/
def setColumn (frame : Frame) (name : String) (col : List ℚ) : Frame :=
  if (List.find? (fun nc => nc.1 = name) frame).isSome then
    List.map (fun nc => if nc.1 = name then (name, col) else nc) frame
  else
    frame ++ [(name, col)]

/-! ## tools.py -/

/-- Embedding of `set_holidays_in_df` (src/src/demandlib/tools.py, lines
48-76), per timestamp: the weekday is replaced by 0 when the timestamp's
date is a holiday. -/
def set_holidays_in_df (weekday : ℕ) (isHoliday : Bool) : ℕ :=
  if isHoliday then 0 else weekday

/-- Embedding of `add_weekdays2df` (src/src/demandlib/tools.py, lines
6-45), per timestamp. `dayOfWeek` is `pandas.DatetimeIndex.weekday`
(0 = Monday .. 6 = Sunday); the code adds 1, then marks holidays as 0,
then (when `holiday_is_sunday`) remaps class 0 to 7. -/
def add_weekdays2df (dayOfWeek : ℕ) (isHoliday : Bool)
    (holiday_is_sunday : Bool) : ℕ :=
  let weekday := dayOfWeek + 1
  let weekday := set_holidays_in_df weekday isHoliday
  if holiday_is_sunday then
    (if weekday = 0 then 7 else weekday)
  else weekday

/-! ## bdew/elec_slp.py -/

/-- Final normalization step of `ElecSlp.create_bdew_load_profiles`
(src/src/demandlib/bdew/elec_slp.py, line 159):
`new_df.div(new_df.sum(axis=0), axis=1)` divides every column by its
own sum. -/
def create_bdew_load_profiles (raw : Frame) : Frame :=
  List.map (fun nc => (nc.1, nc.2.map (fun x => x / nc.2.sum))) raw

/-- The BDEW dynamisation polynomial of
`ElecSlp.create_dynamic_h0_profile` (elec_slp.py, lines 182-188), with
the precise leading coefficient `-3.916649251e-10`. -/
def smoothing_factor (t : ℚ) : ℚ :=
  -(3916649251 / 10 ^ 19) * t ^ 4 + (32 / 10 ^ 8) * t ^ 3
    - (702 / 10 ^ 7) * t ^ 2 + (21 / 10 ^ 4) * t + 124 / 100

/-- The day of the year as a decimal number (elec_slp.py, lines
176-179): entry `q` is `(q + 1) / (24 * 4)`. -/
def decimal_day (nRows : ℕ) : List ℚ :=
  (List.range nRows).map (fun q => ((q : ℚ) + 1) / 96)

/-- Embedding of `ElecSlp.create_dynamic_h0_profile` (elec_slp.py,
lines 161-194): multiply the `h0` column pointwise by the smoothing
factor and store the result as column `h0_dyn`. A missing `h0` column
(Python `KeyError`) is `none`. -/
def create_dynamic_h0_profile (frame : Frame) : Option Frame :=
  (getColumn frame "h0").map (fun h0 =>
    setColumn frame "h0_dyn"
      (List.zipWith (fun x s => x * s) h0
        ((decimal_day h0.length).map smoothing_factor)))

/-- The profile frame built by `ElecSlp.__init__` (elec_slp.py, lines
44-70) from the raw profile table: normalize every column, then add the
dynamic `h0_dyn` column. -/
def elec_slp_frame (raw : Frame) : Option Frame :=
  create_dynamic_h0_profile (create_bdew_load_profiles raw)

/-- Embedding of `ElecSlp.get_scaled_profiles` (elec_slp.py, lines
256-288): `slp_frame.multiply(Series(targets), axis=1).dropna(how="all",
axis=1)` keeps exactly the columns present in both the frame and the
target mapping, each multiplied by its annual target. -/
def get_scaled_profiles (frame : Frame) (targets : List (String × ℚ)) :
    Frame :=
  List.filterMap
    (fun nc => (targets.lookup nc.1).map
      (fun T => (nc.1, nc.2.map (fun x => x * T)))) frame

/-! ## bdew/heat_building.py -/

/-- Daily mean temperature: `self.df["temperature"].resample("D").mean()`
(heat_building.py, lines 104-112). `T` is the hourly temperature series;
day `d` covers hours `24*d .. 24*d+23`. -/
def daily_mean_temperature (T : ℕ → ℚ) (d : ℕ) : ℚ :=
  (∑ k ∈ Finset.range 24, T (24 * d + k)) / 24

/-- The daily means re-indexed to the hourly index and forward-filled
(`.reindex(self.df.index).ffill().bfill()`, heat_building.py, lines
104-112): every hour carries the mean of its own day. -/
def temperature_daily_filled (T : ℕ → ℚ) (h : ℕ) : ℚ :=
  daily_mean_temperature T (h / 24)

/-- `numpy.roll` on a series of length `n`: entry `i` of the result is
entry `(i - k) mod n` of the input (circular shift, wrapping around the
end of the array). -/
def np_roll (n : ℕ) (x : ℕ → ℚ) (k : ℕ) : ℕ → ℚ :=
  fun i => x ((i + n - k % n) % n)

/-- Embedding of `HeatBuilding.weighted_temperature` (heat_building.py,
lines 76-126) for an hourly series of length `n`. The weights 0.5, 0.25,
0.125 and the normalizer 1.875 are the exact rationals 1/2, 1/4, 1/8 and
15/8. An unrecognized `how` returns `none` (Python `None`). -/
def weighted_temperature (n : ℕ) (T : ℕ → ℚ) (how : String) :
    Option (ℕ → ℚ) :=
  let temperature := temperature_daily_filled T
  if how = "geometric_series" then
    some (fun i =>
      (temperature i
        + (1 / 2) * np_roll n temperature 24 i
        + (1 / 4) * np_roll n temperature 48 i
        + (1 / 8) * np_roll n temperature 72 i) / (15 / 8))
  else if how = "mean" then
    some temperature
  else
    none

/-- The static interval table of `HeatBuilding.get_temperature_interval`
(heat_building.py, lines 132-194). -/
def intervals : List (ℤ × ℕ) :=
  [(-20, 1), (-19, 1), (-18, 1), (-17, 1), (-16, 1), (-15, 1),
   (-14, 2), (-13, 2), (-12, 2), (-11, 2), (-10, 2),
   (-9, 3), (-8, 3), (-7, 3), (-6, 3), (-5, 3),
   (-4, 4), (-3, 4), (-2, 4), (-1, 4), (0, 4),
   (1, 5), (2, 5), (3, 5), (4, 5), (5, 5),
   (6, 6), (7, 6), (8, 6), (9, 6), (10, 6),
   (11, 7), (12, 7), (13, 7), (14, 7), (15, 7),
   (16, 8), (17, 8), (18, 8), (19, 8), (20, 8),
   (21, 9), (22, 9), (23, 9), (24, 9), (25, 9),
   (26, 10), (27, 10), (28, 10), (29, 10), (30, 10),
   (31, 10), (32, 10), (33, 10), (34, 10), (35, 10),
   (36, 10), (37, 10), (38, 10), (39, 10), (40, 10)]

/-- Embedding of `HeatBuilding.get_temperature_interval`
(heat_building.py, lines 128-200) for one weighted temperature: round up
with `ceil`, then look the integer up in the static table. A key missing
from the table (Python `KeyError`) is `none`. -/
def get_temperature_interval (t : ℚ) : Option ℕ :=
  intervals.lookup ⌈t⌉

/-- The scaling constant `kw = 1.0 / (sum(h * f) / 24)` of
`HeatBuilding.get_normalized_bdew_profile` (heat_building.py, line 350),
for hourly series `h` (sigmoid values) and `f` (weekday factors) of
length `nHours`. -/
def kw (nHours : ℕ) (h f : ℕ → ℚ) : ℚ :=
  1 / ((∑ i ∈ Finset.range nHours, h i * f i) / 24)

/-- Embedding of `HeatBuilding.get_normalized_bdew_profile`
(heat_building.py, lines 337-353): `kw * h * f * sf` pointwise. The
hourly sigmoid series `h` (`a / (1 + (b / (T_geo - 40)) ** c) + d`,
whose float power does not exist on `ℚ`) and the table-derived series
`f` (weekday factors) and `sf` (hour factors) are parameters; the
claims only use that `h` and `f` are constant on each day, which holds
because the weighted temperature is constant on each day. -/
def get_normalized_bdew_profile (nHours : ℕ) (h f sf : ℕ → ℚ)
    (i : ℕ) : ℚ :=
  kw nHours h f * h i * f i * sf i

/-- Embedding of `HeatBuilding.get_bdew_profile` (heat_building.py,
lines 333-335): the normalized profile times the annual heat demand. -/
def get_bdew_profile (annual : ℚ) (nHours : ℕ) (h f sf : ℕ → ℚ)
    (i : ℕ) : ℚ :=
  get_normalized_bdew_profile nHours h f sf i * annual

/-! ## vdi/regions.py -/

/-- Cloud category assignment of `Region.set_weather_from_try_region`
(regions.py, lines 195-199): `"B"` when the cloud coverage is at least
5, `"H"` below 5. -/
def cloud_category (ccover : ℚ) : String :=
  if 5 ≤ ccover then "B" else "H"

/-- The `seasons_dict` replacement of `Region._get_typical_days`
(regions.py, lines 263-268): map season names to their one-letter
symbols, leaving other values unchanged. -/
def season_symbol (s : String) : String :=
  if s = "summer" then "S"
  else if s = "winter" then "W"
  else if s = "transition" then "U"
  else s

/-- The three sequential `loc` masks of `Region._get_typical_days`
(regions.py, lines 271-273) deriving the temperature-based season of a
day with mean temperature `tamb`: below the winter limit `"W"`, at
least the winter limit `"U"`, above the summer limit `"S"`; later
assignments overwrite earlier ones; a never-assigned cell would stay
`none` (NaN). -/
def season_t (wtl stl tamb : ℚ) : Option String :=
  let s1 : Option String := if tamb < wtl then some "W" else none
  let s2 : Option String := if wtl ≤ tamb then some "U" else s1
  if stl < tamb then some "S" else s2

/-- Lexicographic comparison of (month, day) calendar dates. -/
def date_le (m1 d1 m2 d2 : ℕ) : Bool :=
  decide (m1 < m2 ∨ (m1 = m2 ∧ d1 ≤ d2))

/-- The default season date ranges of `Region.__init__` (regions.py,
lines 115-121), each as (name, start month, start day, end month,
end day). -/
def default_seasons : List (String × ℕ × ℕ × ℕ × ℕ) :=
  [("summer1", 5, 15, 9, 14),
   ("transition1", 3, 21, 5, 14),
   ("transition2", 9, 15, 10, 31),
   ("winter1", 1, 1, 3, 20),
   ("winter2", 11, 1, 12, 31)]

/-- Membership of the date (m, d) in a season's date range. -/
def in_season_range (r : String × ℕ × ℕ × ℕ × ℕ) (m d : ℕ) : Bool :=
  date_le r.2.1 r.2.2.1 m d && date_le m d r.2.2.2.1 r.2.2.2.2

/-- The loop of `Region._get_typical_days` (regions.py, lines 245-252)
assigning `season_fix`: for each season range containing the day, the
cell is overwritten with the season name without its trailing digit
(`p[:-1]`); a day in no range stays `none` (NaN). -/
def season_fix (seasons : List (String × ℕ × ℕ × ℕ × ℕ)) (m d : ℕ) :
    Option String :=
  seasons.foldl
    (fun acc r => if in_season_range r m d then some (r.1.dropRight 1)
      else acc)
    none

/-- The season-mode dispatch of `Region._get_typical_days` (regions.py,
lines 276-284): `"temperature"` selects the temperature-based season,
`"fix"` the fixed-range season, anything else raises
`NotImplementedError` with a message naming the mode. -/
def select_season (mode : String) (s_t s_fix : Option String) :
    Except String (Option String) :=
  if mode = "temperature" then .ok s_t
  else if mode = "fix" then .ok s_fix
  else .error ("Method <" ++ mode ++ "> for the season does not exist.")

/-- The two sequential `loc` masks of `Region._get_typical_days`
(regions.py, lines 287-289) deriving the weekday letter: `"S"` for
weekday class 7 (Sunday or holiday), `"W"` below 7. -/
def day_of_week_letter (weekday : ℕ) : Option String :=
  let s1 : Option String := if weekday = 7 then some "S" else none
  if weekday < 7 then some "W" else s1

/-- Embedding of `Region._get_typical_days` (regions.py, lines 217-301)
for one calendar day: resolve the season (fixed ranges with the
`seasons_dict` symbol replacement, or temperature thresholds), the
weekday letter (from `add_weekdays2df` with `holiday_is_sunday=True`),
replace the cloud letter by the wildcard `"X"` on summer days, and
concatenate season letter, weekday letter and cloud letter in this
order. A NaN season or weekday letter propagates as `none`. -/
def get_typical_day (mode : String)
    (seasons : List (String × ℕ × ℕ × ℕ × ℕ)) (wtl stl : ℚ)
    (m d : ℕ) (tamb : ℚ) (cloud : String) (dayOfWeek : ℕ)
    (isHoliday : Bool) : Except String (Option String) := do
  let sfix := (season_fix seasons m d).map season_symbol
  let st := season_t wtl stl tamb
  let season ← select_season mode st sfix
  let weekday := add_weekdays2df dayOfWeek isHoliday true
  match season, day_of_week_letter weekday with
  | some s, some w =>
      let c := if s = "S" then "X" else cloud
      pure (some (s ++ w ++ c))
  | _, _ => pure none

/-- The `W_TT` computation of `Region.get_daily_energy_demand_houses`
(regions.py, lines 536-545): the derived daily electricity demand, and
whether the negative-value warning was emitted; a negative value is
recomputed with the per-person/per-apartment term set to zero. -/
def w_tt_calc (w_a n_pers_we f_el_tt : ℚ) : ℚ × Bool :=
  let w_tt := w_a * (1 / 365 + n_pers_we * f_el_tt)
  if w_tt < 0 then (w_a * (1 / 365 + n_pers_we * 0), true)
  else (w_tt, false)

/-- The `Q_TWW_TT` computation of `Region.get_daily_energy_demand_houses`
(regions.py, lines 537-553): the derived daily hot-water demand, and
whether the negative-value warning was emitted. -/
def q_tww_calc (q_tww_a n_pers_we f_tww_tt : ℚ) : ℚ × Bool :=
  let q_tww_tt := q_tww_a * (1 / 365 + n_pers_we * f_tww_tt)
  if q_tww_tt < 0 then (q_tww_a * (1 / 365 + n_pers_we * 0), true)
  else (q_tww_tt, false)

/-! ## Helper lemmas -/

/-- A `List.lookup` misses every list whose keys all differ from the
requested key. -/
theorem lookup_eq_none_of_not_mem_keys (z : ℤ) :
    ∀ (l : List (ℤ × ℕ)), (∀ p ∈ l, z ≠ p.1) → l.lookup z = none := by
  intro l
  induction l with
  | nil => intro _; rfl
  | cons p tl ih =>
      intro hl
      obtain ⟨k, b⟩ := p
      rw [List.lookup_cons]
      have hk : (z == k) = false :=
        beq_eq_false_iff_ne.mpr (hl (k, b) (List.mem_cons_self _ _))
      simp only [hk]
      exact ih (fun q hq => hl q (List.mem_cons_of_mem _ hq))

/-- Reading back the column just written by `setColumn`. -/
theorem getColumn_setColumn_self (frame : Frame) (name : String)
    (col : List ℚ) : getColumn (setColumn frame name col) name = some col := by
  unfold getColumn setColumn
  by_cases hs : (List.find? (fun nc => nc.1 = name) frame).isSome
  · rw [if_pos hs, List.find?_map]
    obtain ⟨x, hx⟩ := Option.isSome_iff_exists.mp hs
    have hx1 : x.1 = name := by
      have := List.find?_some hx
      simpa using this
    have hpred : (fun nc : String × List ℚ => decide (nc.1 = name)) ∘
        (fun nc : String × List ℚ =>
          if nc.1 = name then (name, col) else nc) =
        fun nc : String × List ℚ => decide (nc.1 = name) := by
      funext nc
      by_cases h : nc.1 = name <;> simp [h]
    rw [hpred, hx]
    simp [hx1]
  · rw [if_neg hs, List.find?_append]
    have hnone : List.find? (fun nc => nc.1 = name) frame = none :=
      Option.not_isSome_iff_eq_none.mp hs
    rw [hnone]
    simp

/-- `setColumn` leaves every other column unchanged. -/
theorem getColumn_setColumn_ne (frame : Frame) (name c : String)
    (col : List ℚ) (h : c ≠ name) :
    getColumn (setColumn frame name col) c = getColumn frame c := by
  unfold getColumn setColumn
  by_cases hs : (List.find? (fun nc => nc.1 = name) frame).isSome
  · rw [if_pos hs, List.find?_map]
    have hpred : (fun nc : String × List ℚ => decide (nc.1 = c)) ∘
        (fun nc : String × List ℚ =>
          if nc.1 = name then (name, col) else nc) =
        fun nc : String × List ℚ => decide (nc.1 = c) := by
      funext nc
      by_cases hn : nc.1 = name
      · simp [hn, Ne.symm h]
      · simp [hn]
    rw [hpred]
    cases hfind : List.find? (fun nc : String × List ℚ => decide (nc.1 = c))
        frame with
    | none => simp
    | some x =>
        have hx1 : x.1 = c := by
          have := List.find?_some hfind
          simpa using this
        have hxn : ¬(x.1 = name) := by rw [hx1]; exact h
        simp [hxn]
  · rw [if_neg hs, List.find?_append]
    have : List.find? (fun nc : String × List ℚ => decide (nc.1 = c))
        [(name, col)] = none := by
      simp [List.find?, Ne.symm h]
    rw [this]
    simp

/-- `create_bdew_load_profiles` normalizes each column by its own sum,
column-wise. -/
theorem getColumn_create_bdew_load_profiles (raw : Frame) (c : String) :
    getColumn (create_bdew_load_profiles raw) c
      = (getColumn raw c).map (fun l => l.map (fun x => x / l.sum)) := by
  unfold getColumn create_bdew_load_profiles
  rw [List.find?_map]
  have hpred : (fun nc : String × List ℚ => decide (nc.1 = c)) ∘
      (fun nc : String × List ℚ =>
        (nc.1, nc.2.map (fun x => x / nc.2.sum))) =
      fun nc : String × List ℚ => decide (nc.1 = c) := by
    funext nc; rfl
  rw [hpred]
  cases List.find? (fun nc : String × List ℚ => decide (nc.1 = c)) raw with
  | none => rfl
  | some x => rfl

/-- Column-wise description of `get_scaled_profiles`: a column survives
exactly when it has an annual target, and is multiplied by it. -/
theorem getColumn_get_scaled_profiles (frame : Frame)
    (targets : List (String × ℚ)) (c : String) :
    getColumn (get_scaled_profiles frame targets) c
      = match getColumn frame c, targets.lookup c with
        | some l, some T => some (l.map (fun x => x * T))
        | _, _ => none := by
  induction frame with
  | nil =>
      cases targets.lookup c <;> rfl
  | cons a tl ih =>
      unfold get_scaled_profiles at ih ⊢
      by_cases ha : a.1 = c
      · rw [List.filterMap_cons]
        cases hT : targets.lookup a.1 with
        | none =>
            rw [ha] at hT
            simp only [Option.map_none']
            rw [ih, hT]
            have hgc : getColumn (a :: tl) c = some a.2 := by
              unfold getColumn
              rw [List.find?_cons_of_pos _ (by simpa using ha)]
              rfl
            rw [hgc]
            cases hgt : getColumn tl c <;> rfl
        | some T =>
            rw [ha] at hT
            simp only [Option.map_some']
            unfold getColumn
            rw [List.find?_cons_of_pos _ (by simpa using ha),
              List.find?_cons_of_pos _ (by simp [ha]), hT]
            rfl
      · rw [List.filterMap_cons]
        have hgc : getColumn (a :: tl) c = getColumn tl c := by
          unfold getColumn
          rw [List.find?_cons_of_neg _ (by simpa using ha)]
        cases hT : targets.lookup a.1 with
        | none =>
            simp only [Option.map_none']
            rw [ih, hgc]
        | some T =>
            simp only [Option.map_some']
            have : getColumn
                ((a.1, a.2.map (fun x => x * T)) ::
                  get_scaled_profiles tl targets) c
                = getColumn (get_scaled_profiles tl targets) c := by
              unfold getColumn
              rw [List.find?_cons_of_neg _ (by simpa using ha)]
            unfold get_scaled_profiles at this
            rw [this, ih, hgc]

/-! ## Claim theorems -/

/-- Claim C5: for every timestamp (given its pandas weekday number 0-6
and holiday status) and every holiday mode, `add_weekdays2df` assigns
exactly one weekday class in {0,...,7}: `dayOfWeek + 1` (1-6 for Mon-Sat,
7 for Sunday) for a non-holiday, 0 for a holiday when
`holiday_is_sunday = False`, and 7 for a holiday when
`holiday_is_sunday = True`; holiday status always overrides the plain
weekday class, including for holidays that fall on a Sunday. -/
theorem weekday_class_partition (dayOfWeek : ℕ)
    (isHoliday holiday_is_sunday : Bool) (hdow : dayOfWeek < 7) :
    add_weekdays2df dayOfWeek isHoliday holiday_is_sunday ≤ 7 ∧
    (isHoliday = false →
      add_weekdays2df dayOfWeek isHoliday holiday_is_sunday
        = dayOfWeek + 1) ∧
    (isHoliday = true → holiday_is_sunday = false →
      add_weekdays2df dayOfWeek isHoliday holiday_is_sunday = 0) ∧
    (isHoliday = true → holiday_is_sunday = true →
      add_weekdays2df dayOfWeek isHoliday holiday_is_sunday = 7) := by
  cases isHoliday <;> cases holiday_is_sunday <;>
    simp [add_weekdays2df, set_holidays_in_df] <;> omega

/-- Witness for C5: a holiday falling on a Sunday (pandas weekday 6)
keeps class 7 when `holiday_is_sunday = True`. -/
theorem weekday_class_partition_witness :
    add_weekdays2df 6 true true = 7 :=
  (weekday_class_partition 6 true true (by omega)).2.2.2 rfl rfl

/-- Claim C7: whenever the derived daily electricity demand `W_TT` or
hot-water demand `Q_TWW_TT` comes out negative, the computation of
`Region.get_daily_energy_demand_houses` completes with a warning (no
abort) and the value is recomputed with the per-person/per-apartment
contribution dropped, i.e. the neutral fallback `W_a * (1/365)` resp.
`Q_TWW_a * (1/365)`; non-negative values pass through unchanged with no
warning. -/
theorem negative_demand_fallback (w_a q_tww_a n_pers_we f_el_tt
    f_tww_tt : ℚ) :
    (w_a * (1 / 365 + n_pers_we * f_el_tt) < 0 →
      w_tt_calc w_a n_pers_we f_el_tt = (w_a * (1 / 365), true)) ∧
    (0 ≤ w_a * (1 / 365 + n_pers_we * f_el_tt) →
      w_tt_calc w_a n_pers_we f_el_tt
        = (w_a * (1 / 365 + n_pers_we * f_el_tt), false)) ∧
    (q_tww_a * (1 / 365 + n_pers_we * f_tww_tt) < 0 →
      q_tww_calc q_tww_a n_pers_we f_tww_tt
        = (q_tww_a * (1 / 365), true)) ∧
    (0 ≤ q_tww_a * (1 / 365 + n_pers_we * f_tww_tt) →
      q_tww_calc q_tww_a n_pers_we f_tww_tt
        = (q_tww_a * (1 / 365 + n_pers_we * f_tww_tt), false)) := by
  refine ⟨?_, ?_, ?_, ?_⟩ <;> intro h <;> simp only [w_tt_calc, q_tww_calc]
  · rw [if_pos h, mul_zero, add_zero]
  · rw [if_neg (not_lt.mpr h)]
  · rw [if_pos h, mul_zero, add_zero]
  · rw [if_neg (not_lt.mpr h)]

/-- Witness for C7: a one-person house with `W_a = Q_TWW_a = 365` and
factor −1 yields a negative derived demand, which is replaced by the
neutral fallback with the warning flag set. -/
theorem negative_demand_fallback_witness :
    w_tt_calc 365 1 (-1) = (365 * (1 / 365), true) ∧
    q_tww_calc 365 1 (-1) = (365 * (1 / 365), true) :=
  ⟨(negative_demand_fallback 365 365 1 (-1) (-1)).1 (by norm_num),
   (negative_demand_fallback 365 365 1 (-1) (-1)).2.2.1 (by norm_num)⟩

/-- Claim C10: calling `HeatBuilding.weighted_temperature` with a `how`
argument other than `"geometric_series"` or `"mean"` returns `None`
rather than raising an error or falling back to a default method. -/
theorem weighted_temperature_invalid_how (n : ℕ) (T : ℕ → ℚ)
    (how : String) (h1 : how ≠ "geometric_series") (h2 : how ≠ "mean") :
    weighted_temperature n T how = none := by
  simp [weighted_temperature, h1, h2]

/-- Witness for C10: the unrecognized mode `"median"` returns `None`. -/
theorem weighted_temperature_invalid_how_witness :
    weighted_temperature 8760 (fun _ => 0) "median" = none :=
  weighted_temperature_invalid_how 8760 (fun _ => 0) "median"
    (by decide) (by decide)

/-- Claim C4: `HeatBuilding.get_temperature_interval` maps each weighted
temperature, rounded up with `ceil`, through the static table covering
integer keys −20 through 40: every input whose ceiling lies in
[−20, 40] yields an interval number in 1..10, and every input whose
ceiling lies outside that range fails the lookup (Python `KeyError`,
modelled as `none`) instead of returning a value. -/
theorem temperature_interval_domain (t : ℚ) :
    (-20 ≤ ⌈t⌉ ∧ ⌈t⌉ ≤ 40 →
      ∃ i, get_temperature_interval t = some i ∧ 1 ≤ i ∧ i ≤ 10) ∧
    (⌈t⌉ < -20 ∨ 40 < ⌈t⌉ → get_temperature_interval t = none) := by
  constructor
  · rintro ⟨h1, h2⟩
    unfold get_temperature_interval
    set z := ⌈t⌉ with hz
    clear_value z
    interval_cases z <;> exact ⟨_, rfl, by decide, by decide⟩
  · intro h
    unfold get_temperature_interval
    apply lookup_eq_none_of_not_mem_keys
    intro p hp
    have hrange : ∀ p ∈ intervals, (-20 : ℤ) ≤ p.1 ∧ p.1 ≤ 40 := by decide
    have := hrange p hp
    omega

/-- Witness for C4: 2.5 °C (ceiling 3) lands in an interval within
1..10, while 100 °C (ceiling 100, outside −20..40) fails the lookup. -/
theorem temperature_interval_domain_witness :
    (∃ i, get_temperature_interval (5 / 2) = some i ∧ 1 ≤ i ∧ i ≤ 10) ∧
    get_temperature_interval 100 = none := by
  have hc : (⌈(5 : ℚ) / 2⌉ : ℤ) = 3 := by
    rw [Int.ceil_eq_iff]
    norm_num
  have hc100 : (⌈(100 : ℚ)⌉ : ℤ) = 100 := by
    rw [show (100 : ℚ) = ((100 : ℤ) : ℚ) by norm_num, Int.ceil_intCast]
  exact ⟨(temperature_interval_domain (5 / 2)).1 (by rw [hc]; omega),
    (temperature_interval_domain 100).2 (by rw [hc100]; omega)⟩

/-- Claim C9: `ElecSlp.create_dynamic_h0_profile` adds the derived
`"h0_dyn"` column — the `h0` column multiplied pointwise by the
day-of-year smoothing polynomial with leading coefficient
−3.916649251e−10 — as a separate named column, and leaves every
pre-existing column of `slp_frame`, in particular the base `"h0"`
series, unchanged. -/
theorem dynamic_h0_separate_column (frame : Frame) (h0 : List ℚ)
    (hh0 : getColumn frame "h0" = some h0) (c : String)
    (hc : c ≠ "h0_dyn") :
    ∃ newFrame, create_dynamic_h0_profile frame = some newFrame ∧
      getColumn newFrame c = getColumn frame c ∧
      getColumn newFrame "h0_dyn"
        = some (List.zipWith (fun x s => x * s) h0
            ((decimal_day h0.length).map smoothing_factor)) := by
  refine ⟨setColumn frame "h0_dyn"
      (List.zipWith (fun x s => x * s) h0
        ((decimal_day h0.length).map smoothing_factor)), ?_, ?_, ?_⟩
  · unfold create_dynamic_h0_profile
    rw [hh0]
    rfl
  · exact getColumn_setColumn_ne _ _ _ _ hc
  · exact getColumn_setColumn_self _ _ _

/-- Witness for C9: on a two-column frame the `g0` column survives
unchanged and `h0_dyn` is added. -/
theorem dynamic_h0_separate_column_witness :
    ∃ newFrame,
      create_dynamic_h0_profile [("h0", [1, 2]), ("g0", [3, 4])]
        = some newFrame ∧
      getColumn newFrame "g0"
        = getColumn [("h0", [1, 2]), ("g0", [3, 4])] "g0" ∧
      getColumn newFrame "h0_dyn"
        = some (List.zipWith (fun x s => x * s) [1, 2]
            ((decimal_day (List.length [(1 : ℚ), 2])).map
              smoothing_factor)) :=
  dynamic_h0_separate_column [("h0", [1, 2]), ("g0", [3, 4])] [1, 2]
    (by rfl) "g0" (by decide)

/-- Multiplying every entry of a list by a constant multiplies its
sum. -/
theorem list_sum_map_mul_const (l : List ℚ) (r : ℚ) :
    (l.map (fun x => x * r)).sum = l.sum * r := by
  induction l with
  | nil => simp
  | cons a tl ih =>
      simp only [List.map_cons, List.sum_cons, ih]
      ring

/-- Normalizing a list by its (nonzero) sum and scaling by a target
makes the sum equal the target. -/
theorem sum_map_div_mul (l : List ℚ) (T : ℚ) (hs : l.sum ≠ 0) :
    ((l.map (fun x => x / l.sum)).map (fun x => x * T)).sum = T := by
  rw [List.map_map]
  have hcomp : ((fun x => x * T) ∘ fun x : ℚ => x / l.sum)
      = fun x : ℚ => x * (T / l.sum) := by
    funext x
    simp only [Function.comp]
    ring
  rw [hcomp, list_sum_map_mul_const]
  field_simp

/-- Claim C1 (amended): for every annual-target mapping and every
category name other than the derived `"h0_dyn"` column that is present
both in the raw profile frame and in the mapping, with nonzero raw
column sum, the series returned by `ElecSlp.get_scaled_profiles` for
that category sums exactly to the annual target: the construction
divides each raw column by its own sum and `get_scaled_profiles`
multiplies by the target. (The claim as frozen also covers `"h0_dyn"`,
where it fails; see the counterexample.) -/
theorem scaled_profiles_sum_eq_target (raw : Frame)
    (targets : List (String × ℚ)) (nme : String) (col : List ℚ) (T : ℚ)
    (hne : nme ≠ "h0_dyn")
    (hcol : getColumn raw nme = some col)
    (hsum : col.sum ≠ 0)
    (hT : targets.lookup nme = some T)
    (hh0 : (getColumn raw "h0").isSome = true) :
    ∃ slp scol,
      elec_slp_frame raw = some slp ∧
      getColumn (get_scaled_profiles slp targets) nme = some scol ∧
      scol.sum = T := by
  obtain ⟨l, hl⟩ := Option.isSome_iff_exists.mp hh0
  have hl0 : getColumn (create_bdew_load_profiles raw) "h0"
      = some (l.map (fun x => x / l.sum)) := by
    rw [getColumn_create_bdew_load_profiles, hl]
    rfl
  have hslp : elec_slp_frame raw
      = some (setColumn (create_bdew_load_profiles raw) "h0_dyn"
          (List.zipWith (fun x s => x * s) (l.map (fun x => x / l.sum))
            ((decimal_day (l.map (fun x => x / l.sum)).length).map
              smoothing_factor))) := by
    unfold elec_slp_frame create_dynamic_h0_profile
    rw [hl0]
    rfl
  have h1 : getColumn (setColumn (create_bdew_load_profiles raw) "h0_dyn"
        (List.zipWith (fun x s => x * s) (l.map (fun x => x / l.sum))
          ((decimal_day (l.map (fun x => x / l.sum)).length).map
            smoothing_factor))) nme
      = getColumn (create_bdew_load_profiles raw) nme :=
    getColumn_setColumn_ne _ _ _ _ hne
  have h2 : getColumn (create_bdew_load_profiles raw) nme
      = some (col.map (fun x => x / col.sum)) := by
    rw [getColumn_create_bdew_load_profiles, hcol]
    rfl
  refine ⟨_, (col.map (fun x => x / col.sum)).map (fun x => x * T),
    hslp, ?_, sum_map_div_mul col T hsum⟩
  rw [getColumn_get_scaled_profiles, h1, h2, hT]

/-- Witness for C1: the raw column `h0 = [1, 3]` with annual target 10
yields a scaled series summing to 10. -/
theorem scaled_profiles_sum_eq_target_witness :
    ∃ slp scol,
      elec_slp_frame [("h0", [1, 3])] = some slp ∧
      getColumn (get_scaled_profiles slp [("h0", 10)]) "h0" = some scol ∧
      scol.sum = 10 :=
  scaled_profiles_sum_eq_target [("h0", [1, 3])] [("h0", 10)] "h0"
    [1, 3] 10 (by decide) (by rfl)
    (by norm_num [List.sum_cons, List.sum_nil]) (by rfl) (by rfl)

/-- Counterexample to claim C1 as frozen: the category `"h0_dyn"` is
present in the constructed profile frame (built from the raw column
`h0 = [1, 1]`) and in the annual-target mapping `{"h0_dyn": 1}`, yet
the scaled series for `"h0_dyn"` does not sum to the target 1 — the
dynamic column is added after normalization and is not normalized to
sum 1 (its sum is the h0-weighted mean of the smoothing polynomial,
about 1.24 here). -/
theorem scaled_profiles_h0_dyn_counterexample :
    ((elec_slp_frame [("h0", [1, 1])]).bind
        (fun slp => getColumn slp "h0_dyn")).isSome = true ∧
    ((elec_slp_frame [("h0", [1, 1])]).bind
        (fun slp =>
          getColumn (get_scaled_profiles slp [("h0_dyn", 1)])
            "h0_dyn")).map List.sum
      ≠ some 1 := by
  have hl0 : getColumn (create_bdew_load_profiles [("h0", [1, 1])]) "h0"
      = some ([(1 : ℚ), 1].map (fun x => x / List.sum [(1 : ℚ), 1])) := by
    rw [getColumn_create_bdew_load_profiles]
    rfl
  have hslp : elec_slp_frame [("h0", [1, 1])]
      = some (setColumn (create_bdew_load_profiles [("h0", [1, 1])])
          "h0_dyn"
          (List.zipWith (fun x s => x * s)
            ([(1 : ℚ), 1].map (fun x => x / List.sum [(1 : ℚ), 1]))
            ((decimal_day
              ([(1 : ℚ), 1].map
                (fun x => x / List.sum [(1 : ℚ), 1])).length).map
              smoothing_factor))) := by
    unfold elec_slp_frame create_dynamic_h0_profile
    rw [hl0]
    rfl
  rw [hslp]
  constructor
  · simp only [Option.some_bind, getColumn_setColumn_self]
    rfl
  · simp only [Option.some_bind]
    rw [getColumn_get_scaled_profiles, getColumn_setColumn_self]
    have hlk : List.lookup "h0_dyn" [("h0_dyn", (1 : ℚ))] = some 1 := rfl
    rw [hlk]
    simp only [Option.map_some']
    intro hcontra
    have hsum := Option.some.inj hcontra
    rw [show decimal_day ([(1 : ℚ), 1].map
        (fun x => x / List.sum [(1 : ℚ), 1])).length
        = [1 / 96, 2 / 96] by
      unfold decimal_day
      norm_num [List.range_succ]] at hsum
    norm_num [List.sum_cons, List.sum_nil, smoothing_factor] at hsum

/-- Claim C2 (amended): for every hourly temperature series over a
full-day calendar of `24 * m` hours and every hour `h` from day 3
onwards (`72 ≤ h`), `HeatBuilding.weighted_temperature` with
`how="geometric_series"` returns
`(T_D + 0.5*T_(D-1) + 0.25*T_(D-2) + 0.125*T_(D-3)) / 1.875` where
`T_(D-i)` is the daily mean temperature `i` days before the hour's day
`D = h / 24`; these values are causal. (The claim as frozen extends the
causality to the first three days, where `np.roll` instead wraps around
and uses the daily means of the last days of the series; see the
counterexample.) -/
theorem weighted_temperature_geometric_formula (m h : ℕ) (T : ℕ → ℚ)
    (h72 : 72 ≤ h) (hm : h < 24 * m) :
    (weighted_temperature (24 * m) T "geometric_series").map
        (fun w => w h)
      = some ((daily_mean_temperature T (h / 24)
          + (1 / 2) * daily_mean_temperature T (h / 24 - 1)
          + (1 / 4) * daily_mean_temperature T (h / 24 - 2)
          + (1 / 8) * daily_mean_temperature T (h / 24 - 3))
            / (15 / 8)) := by
  have hroll : ∀ k : ℕ, 0 < k → k ≤ 72 →
      (h + 24 * m - k % (24 * m)) % (24 * m) = h - k := by
    intro k hk0 hk72
    have hkm : k % (24 * m) = k := Nat.mod_eq_of_lt (by omega)
    rw [hkm, show h + 24 * m - k = (h - k) + 24 * m by omega,
      Nat.add_mod_right]
    exact Nat.mod_eq_of_lt (by omega)
  simp only [weighted_temperature, eq_self_iff_true, if_true, Option.map_some']
  unfold np_roll temperature_daily_filled
  rw [hroll 24 (by omega) (by omega), hroll 48 (by omega) (by omega),
    hroll 72 (by omega) (by omega),
    show (h - 24) / 24 = h / 24 - 1 by omega,
    show (h - 48) / 24 = h / 24 - 2 by omega,
    show (h - 72) / 24 = h / 24 - 3 by omega]

/-- Witness for C2: a constant series of 1 °C over four days has
weighted temperature `(1 + 1/2 + 1/4 + 1/8) / 1.875 = 1` at hour 72. -/
theorem weighted_temperature_geometric_formula_witness :
    (weighted_temperature (24 * 4) (fun _ => (1 : ℚ))
        "geometric_series").map (fun w => w 72)
      = some ((daily_mean_temperature (fun _ => (1 : ℚ)) (72 / 24)
          + (1 / 2) * daily_mean_temperature (fun _ => (1 : ℚ))
              (72 / 24 - 1)
          + (1 / 4) * daily_mean_temperature (fun _ => (1 : ℚ))
              (72 / 24 - 2)
          + (1 / 8) * daily_mean_temperature (fun _ => (1 : ℚ))
              (72 / 24 - 3)) / (15 / 8)) :=
  weighted_temperature_geometric_formula 4 72 (fun _ => (1 : ℚ))
    (by omega) (by omega)

/-- Counterexample to claim C2 as frozen: two hourly series over four
days (96 hours) that agree on all of the first three days (hours 0-71)
but differ on the last day produce different weighted temperatures at
hour 0, because `np.roll` wraps the lookback around to the end of the
series — so the output on the first three days is not a function of
same-or-earlier daily means. -/
theorem weighted_temperature_noncausal_counterexample :
    ((List.range 72).map (fun h => if 72 ≤ h then (24 : ℚ) else 0)
      = (List.range 72).map (fun _ => (0 : ℚ))) ∧
    (weighted_temperature 96 (fun h => if 72 ≤ h then (24 : ℚ) else 0)
        "geometric_series").map (fun w => w 0)
      ≠ (weighted_temperature 96 (fun _ => (0 : ℚ))
          "geometric_series").map (fun w => w 0) := by
  constructor
  · apply List.map_congr_left
    intro x hx
    rw [List.mem_range] at hx
    rw [if_neg (by omega)]
  · simp only [weighted_temperature, eq_self_iff_true, if_true, Option.map_some',
      ne_eq, Option.some.injEq]
    unfold np_roll temperature_daily_filled daily_mean_temperature
    norm_num [Finset.sum_range_succ]

/-- Splitting an hourly sum over full days into a day-by-day double
sum. -/
theorem sum_range_mul_24 (g : ℕ → ℚ) (n : ℕ) :
    ∑ i ∈ Finset.range (24 * n), g i
      = ∑ d ∈ Finset.range n, ∑ k ∈ Finset.range 24, g (24 * d + k) := by
  induction n with
  | zero => simp
  | succ n ih =>
      rw [show 24 * (n + 1) = 24 * n + 24 by ring, Finset.sum_range_add,
        ih, Finset.sum_range_succ
          (fun d => ∑ k ∈ Finset.range 24, g (24 * d + k)) n]

/-- Claim C3: for a building over `nDays` full days whose sigmoid series
`h` and weekday-factor series `f` are constant within each day (as they
are: both derive from per-day quantities), whose hour factors `sf` sum
to 1 over each day (the BDEW hour-factor table property), and whose
normalization denominator is nonzero, the sum of
`HeatBuilding.get_bdew_profile` over the whole period equals the annual
heat demand exactly: the scaling `kw = 1 / (sum(h*f) / 24)` makes the
normalized shape sum to one unit before multiplication by the annual
target. -/
theorem heat_profile_sum_eq_annual_demand (nDays : ℕ) (annual : ℚ)
    (h f sf : ℕ → ℚ)
    (hh : ∀ d k, k < 24 → h (24 * d + k) = h (24 * d))
    (hf : ∀ d k, k < 24 → f (24 * d + k) = f (24 * d))
    (hsf : ∀ d, d < nDays →
      ∑ k ∈ Finset.range 24, sf (24 * d + k) = 1)
    (hnz : ∑ i ∈ Finset.range (24 * nDays), h i * f i ≠ 0) :
    ∑ i ∈ Finset.range (24 * nDays),
        get_bdew_profile annual (24 * nDays) h f sf i = annual := by
  have hsplit : ∑ i ∈ Finset.range (24 * nDays), h i * f i
      = 24 * ∑ d ∈ Finset.range nDays, h (24 * d) * f (24 * d) := by
    rw [sum_range_mul_24, Finset.mul_sum]
    refine Finset.sum_congr rfl ?_
    intro d _
    rw [Finset.sum_congr rfl
      (fun k hk => by
        rw [hh d k (Finset.mem_range.mp hk),
          hf d k (Finset.mem_range.mp hk)])]
    rw [Finset.sum_const, Finset.card_range]
    ring
  have hS : (∑ d ∈ Finset.range nDays, h (24 * d) * f (24 * d)) ≠ 0 := by
    intro hzero
    apply hnz
    rw [hsplit, hzero, mul_zero]
  unfold get_bdew_profile get_normalized_bdew_profile
  have hbody : ∀ i, kw (24 * nDays) h f * h i * f i * sf i * annual
      = (kw (24 * nDays) h f * annual) * (h i * f i * sf i) := by
    intro i
    ring
  rw [Finset.sum_congr rfl (fun i _ => hbody i), ← Finset.mul_sum]
  have hsum3 : ∑ i ∈ Finset.range (24 * nDays), h i * f i * sf i
      = ∑ d ∈ Finset.range nDays, h (24 * d) * f (24 * d) := by
    rw [sum_range_mul_24]
    refine Finset.sum_congr rfl ?_
    intro d hd
    rw [Finset.sum_congr rfl
      (fun k hk => by
        rw [hh d k (Finset.mem_range.mp hk),
          hf d k (Finset.mem_range.mp hk)])]
    rw [← Finset.mul_sum, hsf d (Finset.mem_range.mp hd), mul_one]
  rw [hsum3]
  unfold kw
  rw [hsplit]
  field_simp

/-- Witness for C3: one day of constant series (`h = f = 1`,
`sf = 1/24` each hour, so the day's hour factors sum to 1) and annual
demand 25000 gives a profile summing to exactly 25000. -/
theorem heat_profile_sum_eq_annual_demand_witness :
    ∑ i ∈ Finset.range (24 * 1),
        get_bdew_profile 25000 (24 * 1) (fun _ => 1) (fun _ => 1)
          (fun _ => 1 / 24) i = 25000 :=
  heat_profile_sum_eq_annual_demand 1 25000 (fun _ => 1) (fun _ => 1)
    (fun _ => 1 / 24)
    (fun _ _ _ => rfl) (fun _ _ _ => rfl)
    (fun d _ => by
      rw [Finset.sum_const, Finset.card_range]
      norm_num)
    (by
      rw [Finset.sum_const, Finset.card_range]
      norm_num)

/-- The three sequential temperature masks always leave exactly one
season letter, `"W"`, `"U"` or `"S"`. -/
theorem season_t_mem (wtl stl tamb : ℚ) :
    season_t wtl stl tamb = some "W" ∨ season_t wtl stl tamb = some "U" ∨
    season_t wtl stl tamb = some "S" := by
  unfold season_t
  by_cases h1 : stl < tamb
  · rw [if_pos h1]
    right; right; rfl
  · rw [if_neg h1]
    by_cases h2 : wtl ≤ tamb
    · rw [if_pos h2]
      right; left; rfl
    · rw [if_neg h2, if_pos (not_le.mp h2)]
      left; rfl

/-- Every valid calendar date (month 1..12, day 1..31) lies in exactly
one of the five default season date ranges. -/
theorem default_seasons_cover_once :
    ∀ m ∈ Finset.Icc 1 12, ∀ d ∈ Finset.Icc 1 31,
      (default_seasons.filter (fun r => in_season_range r m d)).length
        = 1 := by decide

/-- On every valid calendar date the fixed-season assignment with the
default ranges produces exactly one season symbol. -/
theorem season_fix_default_symbol :
    ∀ m ∈ Finset.Icc 1 12, ∀ d ∈ Finset.Icc 1 31,
      ((season_fix default_seasons m d).map season_symbol = some "S" ∨
       (season_fix default_seasons m d).map season_symbol = some "U" ∨
       (season_fix default_seasons m d).map season_symbol
         = some "W") := by decide

/-- Claim C8: when the season-assignment mode passed to
`Region._get_typical_days` is neither `"temperature"` nor `"fix"`, the
call fails with `NotImplementedError` whose message names the invalid
mode (no silent fallback); for the two recognized modes exactly one
season label per day is produced: the temperature masks always yield
exactly one of the three letters, and on every valid date exactly one
default fixed season range matches. -/
theorem season_mode_dispatch (mode : String) (wtl stl tamb : ℚ)
    (m d : ℕ) (hm : 1 ≤ m ∧ m ≤ 12) (hd : 1 ≤ d ∧ d ≤ 31) :
    (mode ≠ "temperature" → mode ≠ "fix" →
      select_season mode (season_t wtl stl tamb)
          ((season_fix default_seasons m d).map season_symbol)
        = .error
          ("Method <" ++ mode ++ "> for the season does not exist.")) ∧
    (select_season "temperature" (season_t wtl stl tamb)
        ((season_fix default_seasons m d).map season_symbol)
      = .ok (season_t wtl stl tamb)) ∧
    (season_t wtl stl tamb).isSome = true ∧
    (select_season "fix" (season_t wtl stl tamb)
        ((season_fix default_seasons m d).map season_symbol)
      = .ok ((season_fix default_seasons m d).map season_symbol)) ∧
    (default_seasons.filter (fun r => in_season_range r m d)).length
      = 1 ∧
    (season_fix default_seasons m d).isSome = true := by
  refine ⟨?_, ?_, ?_, ?_, ?_, ?_⟩
  · intro h1 h2
    unfold select_season
    rw [if_neg h1, if_neg h2]
  · unfold select_season
    rw [if_pos rfl]
  · rcases season_t_mem wtl stl tamb with h | h | h <;> rw [h] <;> rfl
  · unfold select_season
    rw [if_neg (by decide), if_pos rfl]
  · exact default_seasons_cover_once m
      (Finset.mem_Icc.mpr ⟨hm.1, hm.2⟩) d (Finset.mem_Icc.mpr ⟨hd.1, hd.2⟩)
  · have := season_fix_default_symbol m
      (Finset.mem_Icc.mpr ⟨hm.1, hm.2⟩) d (Finset.mem_Icc.mpr ⟨hd.1, hd.2⟩)
    rcases this with h | h | h <;>
      [skip; skip; skip] <;>
      cases hsf : season_fix default_seasons m d <;>
        simp [hsf] at h ⊢

/-- Witness for C8: the unrecognized mode `"auto"` yields the
configuration error naming it, on 1 January with thresholds 5/15 and a
mean temperature of 0 °C. -/
theorem season_mode_dispatch_witness :
    select_season "auto" (season_t 5 15 0)
        ((season_fix default_seasons 1 1).map season_symbol)
      = .error
        ("Method <" ++ "auto" ++ "> for the season does not exist.") ∧
    (season_t 5 15 0).isSome = true :=
  ⟨((season_mode_dispatch "auto" 5 15 0 1 1 (by omega) (by omega)).1
      (by decide) (by decide)),
   (season_mode_dispatch "auto" 5 15 0 1 1 (by omega)
      (by omega)).2.2.1⟩

/-- Claim C6: for every calendar day (valid date, pandas weekday 0-6,
holiday flag) under either recognized season mode,
`Region._get_typical_days` produces exactly one 3-letter day-type code,
concatenated in the fixed order season symbol (one of W/S/U), then
weekday-class symbol (`"S"` for weekday class 7, Sunday or holiday,
`"W"` otherwise), then cloud symbol; the cloud symbol is `"B"` when the
cloud coverage is at least 5 and `"H"` below 5, and every day whose
season symbol is summer (`"S"`) gets the wildcard `"X"` regardless of
its cloud coverage. -/
theorem typical_day_code_structure (mode : String)
    (wtl stl tamb ccover : ℚ) (m d dow : ℕ) (hol : Bool)
    (hmode : mode = "temperature" ∨ mode = "fix")
    (hm : 1 ≤ m ∧ m ≤ 12) (hd : 1 ≤ d ∧ d ≤ 31) (hdow : dow < 7) :
    ∃ s, (s = "W" ∨ s = "U" ∨ s = "S") ∧
      get_typical_day mode default_seasons wtl stl m d tamb
          (cloud_category ccover) dow hol
        = .ok (some (s
            ++ (if add_weekdays2df dow hol true = 7 then "S" else "W")
            ++ (if s = "S" then "X"
                else if 5 ≤ ccover then "B" else "H"))) := by
  have hwb : 1 ≤ add_weekdays2df dow hol true ∧
      add_weekdays2df dow hol true ≤ 7 := by
    cases hol <;> simp [add_weekdays2df, set_holidays_in_df] <;> omega
  have hwd : day_of_week_letter (add_weekdays2df dow hol true)
      = some (if add_weekdays2df dow hol true = 7 then "S" else "W") := by
    unfold day_of_week_letter
    by_cases h7 : add_weekdays2df dow hol true = 7
    · simp [h7]
    · simp [h7, show add_weekdays2df dow hol true < 7 by omega]
  have hsel_t : ∀ (a b : Option String),
      select_season "temperature" a b = .ok a := by
    intro a b
    unfold select_season
    rw [if_pos rfl]
  have hsel_f : ∀ (a b : Option String),
      select_season "fix" a b = .ok b := by
    intro a b
    unfold select_season
    rw [if_neg (by decide), if_pos rfl]
  have hseason : ∃ s, (s = "W" ∨ s = "U" ∨ s = "S") ∧
      select_season mode (season_t wtl stl tamb)
        ((season_fix default_seasons m d).map season_symbol)
        = .ok (some s) := by
    rcases hmode with hmo | hmo
    · rw [hmo, hsel_t]
      rcases season_t_mem wtl stl tamb with h | h | h
      · exact ⟨"W", Or.inl rfl, by rw [h]⟩
      · exact ⟨"U", Or.inr (Or.inl rfl), by rw [h]⟩
      · exact ⟨"S", Or.inr (Or.inr rfl), by rw [h]⟩
    · rw [hmo, hsel_f]
      have hfix := season_fix_default_symbol m
        (Finset.mem_Icc.mpr ⟨hm.1, hm.2⟩) d
        (Finset.mem_Icc.mpr ⟨hd.1, hd.2⟩)
      rcases hfix with h | h | h
      · exact ⟨"S", Or.inr (Or.inr rfl), by rw [h]⟩
      · exact ⟨"U", Or.inr (Or.inl rfl), by rw [h]⟩
      · exact ⟨"W", Or.inl rfl, by rw [h]⟩
  obtain ⟨s, hsval, hsel⟩ := hseason
  refine ⟨s, hsval, ?_⟩
  unfold get_typical_day
  dsimp only
  rw [hsel]
  show (match some s, day_of_week_letter (add_weekdays2df dow hol true)
    with
    | some s, some w =>
        pure (some (s ++ w ++ if s = "S" then "X" else cloud_category
          ccover))
    | _, _ => pure none) = _
  rw [hwd]
  unfold cloud_category
  rfl

/-- Witness for C6: a warm (20 °C) first of January in temperature mode
with cloud coverage 6, a Monday, no holiday. -/
theorem typical_day_code_structure_witness :
    ∃ s, (s = "W" ∨ s = "U" ∨ s = "S") ∧
      get_typical_day "temperature" default_seasons 5 15 1 1 20
          (cloud_category 6) 0 false
        = .ok (some (s
            ++ (if add_weekdays2df 0 false true = 7 then "S" else "W")
            ++ (if s = "S" then "X" else if (5 : ℚ) ≤ 6 then "B"
                else "H"))) :=
  typical_day_code_structure "temperature" 5 15 20 6 1 1 0 false
    (Or.inl rfl) (by omega) (by omega) (by omega)
